import Mathlib

/-!
Verification development for the tinyroute core: a shallow embedding of
`src/agent.rs` and `src/bridge.rs` into Lean, together with theorems about
the embedded operations.

Conventions of the embedding:
* Rust `u64` arithmetic is modelled as `Nat` with an explicit `% 2 ^ 64`
  at every operation that can overflow (release-mode wrapping semantics).
* `async` waits become oracle inputs: the outcome of each TCP connection
  attempt, and the winner of the `tokio::select!` race in `Bridge::run`,
  are supplied as explicit arguments.
* Possibly non-terminating loops (`connect_to` under `Retry::Forever`) are
  given fuel; a `none` result means the loop did not finish within the
  fuel, so a property proved for every fuel value is a property of the
  (possibly diverging) loop itself.
* `Box<dyn Any>` payloads are modelled as a closed tagged union over a
  small universe `Ty` of payload types; `downcast` compares the tag.
* Code of the crate that is not part of the inspected sources
  (`router.rs`, `frame.rs`, `errors.rs`) is modelled from the
  specification; every such definition carries a doc comment starting
  with `Modelled from the spec:`.
-/

namespace Tinyroute

/-- Modelled from the spec: the error taxonomy of `errors.rs` (not among the
inspected sources), restricted to the variants used by `agent.rs`
(`Error::ChannelClosed`, `Error::InvalidMessageType`) and the registration
errors named in the spec (`AddressInUse`, `RouterClosed`).
`invalidMessageType` is the code's name for the spec's InvalidPayloadType. -/
inductive Error where
  | routerClosed
  | channelClosed
  | addressInUse
  | invalidMessageType
deriving DecidableEq

instance {E X : Type} [DecidableEq E] [DecidableEq X] : DecidableEq (Except E X)
  | .error e1, .error e2 =>
    if h : e1 = e2 then .isTrue (by rw [h]) else .isFalse (fun he => h (Except.error.inj he))
  | .error _, .ok _ => .isFalse Except.noConfusion
  | .ok _, .error _ => .isFalse Except.noConfusion
  | .ok v1, .ok v2 =>
    if h : v1 = v2 then .isTrue (by rw [h]) else .isFalse (fun he => h (Except.ok.inj he))

/-- The universe of concrete payload types an agent may declare; stands for
the `T : Send + 'static` type parameters of `Agent<T, A>` and
`Agent::send<U>`. -/
inductive Ty where
  | nat
  | str
  | bool
deriving DecidableEq

/-- Interpretation of a payload-type tag as a Lean type. -/
@[reducible] def Ty.interp : Ty → Type
  | .nat => Nat
  | .str => String
  | .bool => Bool

/-- Embeds `AnyMessage` (agent.rs): a type-erased boxed value, here a tagged
union over the `Ty` universe. -/
inductive AnyMessage where
  | ofNat (n : Nat)
  | ofStr (s : String)
  | ofBool (b : Bool)
deriving DecidableEq

/-- Embeds `AnyMessage::new::<T>(val)`: erase a typed value to `AnyMessage`. -/
def AnyMessage.new : (t : Ty) → t.interp → AnyMessage
  | .nat, n => .ofNat n
  | .str, s => .ofStr s
  | .bool, b => .ofBool b

/-- The runtime type tag carried by an erased value. -/
def AnyMessage.ty : AnyMessage → Ty
  | .ofNat _ => .nat
  | .ofStr _ => .str
  | .ofBool _ => .bool

/-- Embeds `Box<dyn Any>::downcast::<U>()`: succeeds exactly when the erased
value's runtime type is `U`. -/
def AnyMessage.downcast : AnyMessage → (U : Ty) → Option U.interp
  | .ofNat n, .nat => some n
  | .ofStr s, .str => some s
  | .ofBool b, .bool => some b
  | _, _ => none

/-- Embeds `Message<T, A>` (agent.rs), the user-facing message type. -/
inductive Message (T A : Type) where
  | remoteMessage (bytes : List Nat) (sender : A)
  | value (val : T) (sender : A)
  | agentRemoved (addr : A)
  | shutdown
deriving DecidableEq

/-- Embeds `AgentMsg<A>` (agent.rs), the mailbox wire format between the
Router and one Agent. -/
inductive AgentMsg (A : Type) where
  | message (val : AnyMessage) (sender : A)
  | remoteMessage (bytes : List Nat) (sender : A)
  | agentRemoved (addr : A)
  | shutdown
deriving DecidableEq

/-- Embeds `AgentMsg::to_local_message::<U>` (agent.rs): raw bytes, removal
notifications and shutdown pass through; an erased value is downcast to the
expected payload type `U`, failing with `invalidMessageType` on mismatch. -/
def AgentMsg.toLocalMessage {A : Type} (U : Ty) : AgentMsg A → Except Error (Message U.interp A)
  | .remoteMessage bytes sender => .ok (.remoteMessage bytes sender)
  | .agentRemoved address => .ok (.agentRemoved address)
  | .message val sender =>
    match val.downcast U with
    | some v => .ok (.value v sender)
    | none => .error .invalidMessageType
  | .shutdown => .ok .shutdown

/-- Embeds `RouterMessage<A>` (declared in router.rs, not among the inspected
sources; the variants and their fields are exactly those constructed by
agent.rs): the envelopes submitted to the Router's command queue.
`track`'s fields are the code's `from` and `to`. -/
inductive RouterMessage (A : Type) where
  | message (recipient : A) (sender : A) (msg : AnyMessage)
  | remoteMessage (recipient : A) (sender : A) (bytes : List Nat)
  | track (fromAddr : A) (toAddr : A)
  | unregister (address : A)
  | shutdown (address : A)
deriving DecidableEq

variable {A : Type} [DecidableEq A]

/-- Modelled from the spec: the Router-side state (router.rs is not among
the inspected sources): whether the command queue is still open, the
address-to-mailbox registry, the directed tracking graph
(watcher, watched), and the ordered queue of submitted, not yet dispatched
envelopes (§3, §4.1). -/
structure System (A : Type) where
  routerOpen : Bool
  registry : List (A × List (AgentMsg A))
  tracking : List (A × A)
  pending : List (RouterMessage A)
deriving DecidableEq

/-- Modelled from the spec: `RouterTx::send` / `submit(envelope)`
(router.rs is not among the inspected sources): enqueues one envelope,
failing with RouterClosed iff the Router's command queue is gone (§4.1). -/
def System.submit (s : System A) (m : RouterMessage A) : System A × Except Error Unit :=
  if s.routerOpen then
    ({ s with pending := s.pending ++ [m] }, .ok ())
  else
    (s, .error .routerClosed)

/-- Modelled from the spec: `RouterTx::register_agent` (router.rs is not
among the inspected sources): installs a new empty mailbox; registering an
address that already has a live mailbox fails with AddressInUse, a closed
Router fails with RouterClosed (§4.1). -/
def System.registerAgent (s : System A) (address : A) : Except Error (System A) :=
  if s.routerOpen then
    match s.registry.lookup address with
    | some _ => .error .addressInUse
    | none => .ok { s with registry := s.registry ++ [(address, [])] }
  else
    .error .routerClosed

/-- Appends a mailbox message to the mailbox registered at `addr`, if any;
a missing mailbox means the message is dropped (§4.1 Deliver, best-effort
notifications). -/
def pushMailbox (addr : A) (msg : AgentMsg A) : List (A × List (AgentMsg A)) → List (A × List (AgentMsg A))
  | [] => []
  | p :: rest =>
    if p.1 = addr then (p.1, p.2 ++ [msg]) :: rest
    else p :: pushMailbox addr msg rest

/-- Removes the registry entry for `addr`. -/
def removeAddr (addr : A) (reg : List (A × List (AgentMsg A))) : List (A × List (AgentMsg A)) :=
  reg.filter (fun p => !(p.1 == addr))

/-- Modelled from the spec: the Router dispatch loop's handling of one
envelope (router.rs is not among the inspected sources), per §4.1:
Deliver pushes onto the recipient's mailbox or silently drops; Track
inserts the directed edge (watcher = `from`, watched = `to`); Unregister
removes the mailbox, best-effort notifies every watcher of the removed
address and clears its tracking edges; Shutdown pushes a shutdown message
without removing the registry entry. -/
def System.dispatchOne (s : System A) (m : RouterMessage A) : System A :=
  match m with
  | .message recipient sender msg =>
    { s with registry := pushMailbox recipient (.message msg sender) s.registry }
  | .remoteMessage recipient sender bytes =>
    { s with registry := pushMailbox recipient (.remoteMessage bytes sender) s.registry }
  | .track fromAddr toAddr =>
    { s with tracking := s.tracking ++ [(fromAddr, toAddr)] }
  | .unregister address =>
    let watchers := (s.tracking.filter (fun e => e.2 == address)).map Prod.fst
    let reg := removeAddr address s.registry
    let reg := watchers.foldl (fun r w => pushMailbox w (.agentRemoved address) r) reg
    { s with
        registry := reg,
        tracking := s.tracking.filter (fun e => !(e.1 == address) && !(e.2 == address)) }
  | .shutdown address =>
    { s with registry := pushMailbox address .shutdown s.registry }

/-- Dispatches every pending envelope in submission order. -/
def System.dispatchAll (s : System A) : System A :=
  (s.pending.foldl System.dispatchOne { s with pending := [] })

/-- The state of one `Agent<T, A>` handle (agent.rs): its own address and
its statically declared payload type (the phantom `T`). The mailbox
receiver and router handle are externalized: mailboxes live in `System`,
and router submissions act on a `System`. -/
structure AgentState (A : Type) where
  address : A
  payloadTy : Ty
deriving DecidableEq

/-- Embeds `impl Drop for Agent` (agent.rs): destroying a handle submits
`RouterMessage::Unregister(self.address)`; the submission result is
discarded (`let _ = ...`), so a closed Router is silently ignored. -/
def Agent.drop (a : AgentState A) (s : System A) : System A :=
  (s.submit (.unregister a.address)).1

/-- Embeds `Agent::create_agent` (agent.rs), preserving the source's order
of operations: the child `Agent` handle is constructed first
(`Agent::new`), then registration is attempted; when registration fails,
the `?` operator returns the error and the freshly built child handle goes
out of scope, so its `Drop` runs and submits an Unregister for the child
address. -/
def Agent.createAgent (_a : AgentState A) (childTy : Ty) (address : A) (_cap : Nat)
    (s : System A) : Except Error (AgentState A) × System A :=
  let agent : AgentState A := ⟨address, childTy⟩
  match s.registerAgent address with
  | .ok s2 => (.ok agent, s2)
  | .error e => (.error e, Agent.drop agent s)

/-- Embeds `Agent::track` (agent.rs): submits
`RouterMessage::Track { from: self.address, to: address }`. -/
def Agent.track (a : AgentState A) (address : A) (s : System A) : System A × Except Error Unit :=
  s.submit (.track a.address address)

/-- Embeds `Agent::reverse_track` (agent.rs): submits
`RouterMessage::Track { from: address, to: self.address }`. -/
def Agent.reverseTrack (a : AgentState A) (address : A) (s : System A) : System A × Except Error Unit :=
  s.submit (.track address a.address)

/-- Embeds `Agent::recv` (agent.rs) acting on the queued contents of the
agent's mailbox: an exhausted mailbox whose senders are gone yields
ChannelClosed; otherwise the head message is converted with
`to_local_message` against the agent's declared payload type `U`. -/
def Agent.recv {A : Type} (U : Ty) (mb : List (AgentMsg A)) :
    Except Error (Message U.interp A) × List (AgentMsg A) :=
  match mb with
  | [] => (.error .channelClosed, [])
  | m :: rest => (m.toLocalMessage U, rest)

/-- Embeds `Agent::send::<U>` (agent.rs): wraps the payload as an erased
`AnyMessage` tagged with the sender's address and submits a Deliver
envelope; note that `U` is unconstrained by the agent's own `payloadTy`
and no type check is performed. -/
def Agent.send (a : AgentState A) (U : Ty) (recipient : A) (message : U.interp)
    (s : System A) : System A × Except Error Unit :=
  s.submit (.message recipient a.address (AnyMessage.new U message))

/-! ## Bridge (bridge.rs) -/

/-- Embeds `Reconnect` (bridge.rs): the reconnection backoff policy.
`constant` carries a `Duration`, `exponential` carries `u64` second
counts; both are modelled as `Nat` (durations in nanoseconds). -/
inductive Reconnect where
  | constant (d : Nat)
  | exponential (seconds : Nat) (max : Option Nat)
deriving DecidableEq

/-- Embeds `Retry` (bridge.rs): the retry budget of the connection step. -/
inductive Retry where
  | never
  | forever
  | count (n : Nat)
deriving DecidableEq

/-- The `u64` modulus: `seconds` in `Reconnect::Exponential` is a `u64`,
and `*seconds *= 2` wraps at this bound. -/
def U64 : Nat := 2 ^ 64

/-- Embeds `Duration::from_secs`: durations are nanosecond counts. -/
def Duration.fromSecs (s : Nat) : Nat := s * 1000000000

/-- Embeds the `sleep_time` computation of `connect_to` (bridge.rs) for one
failed attempt: `Constant(n)` sleeps `n` and leaves the policy unchanged;
`Exponential` sleeps `from_secs(seconds.min(max))` (or `seconds` with no
cap) and then doubles `seconds` in place, a wrapping `u64` doubling. -/
def backoffStep : Reconnect → Nat × Reconnect
  | .constant d => (d, .constant d)
  | .exponential seconds max =>
    (Duration.fromSecs (match max with | some m => min seconds m | none => seconds),
     .exponential (seconds * 2 % U64) max)

/-- Embeds the `match retry` of `connect_to` (bridge.rs), in source arm
order: `Count(0)` and `Never` abort the loop (`none`); `Count(n)` with
`n > 0` decrements; `Forever` is unchanged. -/
def retryStep : Retry → Option Retry
  | .count 0 => none
  | .never => none
  | .count (n + 1) => some (.count n)
  | .forever => some .forever

/-- Outcome of one terminating run of `connect_to` (bridge.rs): the
established connection if any (`conn`, an oracle-chosen identifier for the
`(ClientSender, ClientReceiver)` pair), the number of connection attempts
performed, the sleeps performed between attempts in order, and the final
state of the (mutably borrowed) backoff policy. -/
structure ConnectResult where
  conn : Option Nat
  attempts : Nat
  sleeps : List Nat
  policy : Reconnect
deriving DecidableEq

/-- Embeds `connect_to` (bridge.rs). `ok k` is the oracle outcome of the
`k`-th `TcpClient::connect` attempt (`none` = I/O failure). Each failed
attempt first computes the backoff sleep (mutating the policy), then
consumes retry budget — aborting with no connection when the budget is
exhausted, otherwise sleeping and retrying. `fuel` bounds the number of
loop iterations; a `none` result means the loop was still running. -/
def connectTo : Nat → (Nat → Option Nat) → Reconnect → Retry → Option ConnectResult
  | 0, _, _, _ => none
  | fuel + 1, ok, rc, retry =>
    match ok 0 with
    | some c => some ⟨some c, 1, [], rc⟩
    | none =>
      match retryStep retry with
      | none => some ⟨none, 1, [], (backoffStep rc).2⟩
      | some retry2 =>
        match connectTo fuel (fun k => ok (k + 1)) (backoffStep rc).2 retry2 with
        | none => none
        | some r => some ⟨r.conn, r.attempts + 1, (backoffStep rc).1 :: r.sleeps, r.policy⟩

/-- The sleeps produced by `n` consecutive failed attempts starting from
backoff policy `rc`. -/
def backoffSleeps : Reconnect → Nat → List Nat
  | _, 0 => []
  | rc, n + 1 => (backoffStep rc).1 :: backoffSleeps (backoffStep rc).2 n

/-- The backoff policy after `n` failed attempts. -/
def backoffIter : Reconnect → Nat → Reconnect
  | rc, 0 => rc
  | rc, n + 1 => backoffIter (backoffStep rc).2 n

/-- Modelled from the spec: `Frame::frame_message` (frame.rs is not among
the inspected sources): a fixed-width big-endian length header (4 bytes
here; the spec fixes only "fixed-width big-endian") followed by exactly
the payload bytes (§4.4). -/
def Frame.frameMessage (bytes : List Nat) : List Nat :=
  [bytes.length / 2 ^ 24 % 256, bytes.length / 2 ^ 16 % 256,
   bytes.length / 2 ^ 8 % 256, bytes.length % 256] ++ bytes

/-- Embeds `ClientMessage` (declared in client.rs, not among the inspected
sources) restricted to the only variant bridge.rs constructs: a framed
payload written to the connection's send side. -/
inductive ClientMessage where
  | payload (bytes : List Nat)
deriving DecidableEq

/-- Embeds the state of `Bridge` (bridge.rs) relevant to `run`: the backoff
policy, heartbeat, retry budget and the currently held connection (an
oracle-chosen identifier, `None` when no connection is held). The wrapped
agent and target address are externalized into the run environment. -/
structure Bridge where
  reconnect : Reconnect
  heartbeat : Option Nat
  retry : Retry
  connection : Option Nat
deriving DecidableEq

/-- The resolved winner of the `tokio::select!` race in `Bridge::run`:
either the connection-closed probe completed (`isClosed` = its channel
returned `None`), or the wrapped agent's `recv` completed with a result. -/
inductive SelectArm (T A : Type) where
  | closed (isClosed : Bool)
  | agentMsg (m : Except Error (Message T A))

/-- Environment of one `Bridge::run` invocation: fuel for the connection
step, the attempt oracle of the `i`-th `connect_to` call performed in this
invocation, and the select outcome. -/
structure RunEnv (T A : Type) where
  fuel : Nat
  oks : Nat → Nat → Option Nat
  arm : SelectArm T A

/-- Result of one terminating `Bridge::run` invocation: the bridge state
after the call, the message returned to the caller, the client messages
written to the connection's send side, and how many times the connection
step (`connect_to`) was invoked. -/
structure RunResult (T A : Type) where
  bridge : Bridge
  output : Option (Message T A)
  sent : List ClientMessage
  connectCalls : Nat
deriving DecidableEq

/-- Embeds `Bridge::reconnect` (bridge.rs): replaces the held connection
with the outcome of `connect_to`, whose mutation of the backoff policy
persists in the bridge; `none` propagates a still-running connection
step. -/
def Bridge.reconnectStep (b : Bridge) (fuel : Nat) (ok : Nat → Option Nat) : Option Bridge :=
  match connectTo fuel ok b.reconnect b.retry with
  | none => none
  | some r => some { b with connection := r.conn, reconnect := r.policy }

/-- Embeds `Bridge::run` (bridge.rs): if no connection is held, perform the
connection step, and report `Shutdown` if it yields no connection;
otherwise act on the select winner: a closed-connection signal triggers an
immediate `reconnect()` and returns `None`; a non-closed probe result or a
failed agent `recv` returns `None`; an agent `RemoteMessage` is framed and
written to the send side with nothing returned; every other agent message
is returned unchanged. An overall `none` means a connection step inside
this invocation was still running. -/
def Bridge.run {T A : Type} (b : Bridge) (env : RunEnv T A) : Option (RunResult T A) :=
  match (match b.connection with
         | none =>
           match b.reconnectStep env.fuel (env.oks 0) with
           | none => none
           | some b2 => some (b2, 1)
         | some _ => some (b, 0)) with
  | none => none
  | some (b1, calls) =>
    match b1.connection with
    | none => some ⟨b1, some .shutdown, [], calls⟩
    | some _ =>
      match env.arm with
      | .closed true =>
        match b1.reconnectStep env.fuel (env.oks calls) with
        | none => none
        | some b2 => some ⟨b2, none, [], calls + 1⟩
      | .closed false => some ⟨b1, none, [], calls⟩
      | .agentMsg (.error _) => some ⟨b1, none, [], calls⟩
      | .agentMsg (.ok (.remoteMessage bytes _)) =>
        some ⟨b1, none, [ClientMessage.payload (Frame.frameMessage bytes)], calls⟩
      | .agentMsg (.ok m) => some ⟨b1, some m, [], calls⟩

/-! ## Lemmas about the connection step -/

/-- A run of `connect_to` with budget `Count(n)` in which every attempt
fails: it terminates (given at least `n + 1` fuel) with no connection
after exactly `n + 1` attempts, having slept `n` times and doubled the
backoff state `n + 1` times. -/
theorem connectTo_count_allFail (n : Nat) :
    ∀ (fuel : Nat) (ok : Nat → Option Nat) (rc : Reconnect),
      (∀ k, ok k = none) → n + 1 ≤ fuel →
      connectTo fuel ok rc (.count n) =
        some ⟨none, n + 1, backoffSleeps rc n, backoffIter rc (n + 1)⟩ := by
  induction n with
  | zero =>
    intro fuel ok rc hok hf
    obtain ⟨f, rfl⟩ : ∃ f, fuel = f + 1 := ⟨fuel - 1, by omega⟩
    simp [connectTo, hok 0, retryStep, backoffSleeps, backoffIter]
  | succ n ih =>
    intro fuel ok rc hok hf
    obtain ⟨f, rfl⟩ : ∃ f, fuel = f + 1 := ⟨fuel - 1, by omega⟩
    have hrec := ih f (fun k => ok (k + 1)) (backoffStep rc).2 (fun k => hok (k + 1)) (by omega)
    simp [connectTo, hok 0, retryStep, hrec, backoffSleeps, backoffIter]

/-- A run of `connect_to` with budget `Never` whose first attempt fails
terminates at once with no connection after exactly one attempt. -/
theorem connectTo_never_fail (fuel : Nat) (ok : Nat → Option Nat) (rc : Reconnect)
    (hok : ok 0 = none) (hf : 1 ≤ fuel) :
    connectTo fuel ok rc .never = some ⟨none, 1, [], (backoffStep rc).2⟩ := by
  obtain ⟨f, rfl⟩ : ∃ f, fuel = f + 1 := ⟨fuel - 1, by omega⟩
  simp [connectTo, hok, retryStep]

/-- A run of `connect_to` with budget `Forever` never terminates with "no
connection": whenever it terminates, a connection was established. -/
theorem connectTo_forever_conn :
    ∀ (fuel : Nat) (ok : Nat → Option Nat) (rc : Reconnect) (r : ConnectResult),
      connectTo fuel ok rc .forever = some r → r.conn ≠ none := by
  intro fuel
  induction fuel with
  | zero => intro ok rc r h; simp [connectTo] at h
  | succ fuel ih =>
    intro ok rc r h
    rw [connectTo] at h
    match hk : ok 0 with
    | some c => rw [hk] at h; simp at h; simp [← h]
    | none =>
      rw [hk] at h
      simp only [retryStep] at h
      match hr : connectTo fuel (fun k => ok (k + 1)) (backoffStep rc).2 .forever with
      | none => rw [hr] at h; simp at h
      | some r2 =>
        rw [hr] at h
        simp at h
        have := ih (fun k => ok (k + 1)) (backoffStep rc).2 r2 hr
        rw [← h]
        simpa using this

/-- The sleeps of consecutive failed attempts under
`Exponential { seconds := s, max := Some m }`: the `i`-th sleep (0-based)
is `from_secs (min (s * 2 ^ i mod 2 ^ 64) m)` — the `u64` doubling wraps. -/
theorem backoffSleeps_exp_cap :
    ∀ (n s m : Nat), s < U64 →
      backoffSleeps (.exponential s (some m)) n =
        (List.range n).map (fun i => Duration.fromSecs (min (s * 2 ^ i % U64) m)) := by
  intro n
  induction n with
  | zero => intro s m _; rfl
  | succ n ih =>
    intro s m hs
    have h2 : s * 2 % U64 < U64 := Nat.mod_lt _ (by simp [U64])
    have htail : (List.range n).map
          (fun i => Duration.fromSecs (min (s * 2 % U64 * 2 ^ i % U64) m)) =
        (List.range n).map (fun i => Duration.fromSecs (min (s * 2 ^ (i + 1) % U64) m)) := by
      refine List.map_congr_left (fun i _ => ?_)
      rw [Nat.mod_mul_mod, pow_succ]
      ring_nf
    have hr : (List.range (n + 1)).map
          (fun i => Duration.fromSecs (min (s * 2 ^ i % U64) m)) =
        Duration.fromSecs (min (s * 2 ^ 0 % U64) m) ::
          (List.range n).map (fun i => Duration.fromSecs (min (s * 2 ^ (i + 1) % U64) m)) := by
      rw [List.range_succ_eq_map, List.map_cons, List.map_map]
      rfl
    have hhead : Duration.fromSecs (min (s * 2 ^ 0 % U64) m) = Duration.fromSecs (min s m) := by
      rw [pow_zero, Nat.mul_one, Nat.mod_eq_of_lt hs]
    rw [backoffSleeps]
    simp only [backoffStep]
    rw [ih (s * 2 % U64) m h2, htail, hr, hhead]

/-- The sleeps of consecutive failed attempts under
`Exponential { seconds := s, max := None }`: the `i`-th sleep is
`from_secs (s * 2 ^ i mod 2 ^ 64)`. -/
theorem backoffSleeps_exp_nocap :
    ∀ (n s : Nat), s < U64 →
      backoffSleeps (.exponential s none) n =
        (List.range n).map (fun i => Duration.fromSecs (s * 2 ^ i % U64)) := by
  intro n
  induction n with
  | zero => intro s _; rfl
  | succ n ih =>
    intro s hs
    have h2 : s * 2 % U64 < U64 := Nat.mod_lt _ (by simp [U64])
    have htail : (List.range n).map
          (fun i => Duration.fromSecs (s * 2 % U64 * 2 ^ i % U64)) =
        (List.range n).map (fun i => Duration.fromSecs (s * 2 ^ (i + 1) % U64)) := by
      refine List.map_congr_left (fun i _ => ?_)
      rw [Nat.mod_mul_mod, pow_succ]
      ring_nf
    have hr : (List.range (n + 1)).map (fun i => Duration.fromSecs (s * 2 ^ i % U64)) =
        Duration.fromSecs (s * 2 ^ 0 % U64) ::
          (List.range n).map (fun i => Duration.fromSecs (s * 2 ^ (i + 1) % U64)) := by
      rw [List.range_succ_eq_map, List.map_cons, List.map_map]
      rfl
    have hhead : Duration.fromSecs (s * 2 ^ 0 % U64) = Duration.fromSecs s := by
      rw [pow_zero, Nat.mul_one, Nat.mod_eq_of_lt hs]
    rw [backoffSleeps]
    simp only [backoffStep]
    rw [ih (s * 2 % U64) h2, htail, hr, hhead]

/-- The sleeps of consecutive failed attempts under `Constant(d)`: every
sleep is `d`. -/
theorem backoffSleeps_const (n d : Nat) :
    backoffSleeps (.constant d) n = List.replicate n d := by
  induction n with
  | zero => rfl
  | succ n ih => rw [backoffSleeps, List.replicate_succ]; simp [backoffStep, ih]

/-! ## Lemmas about payload downcasts and the registry -/

/-- Erasing a typed value and downcasting it back to the same type tag
recovers the value. -/
theorem AnyMessage.downcast_new (U : Ty) (w : U.interp) :
    (AnyMessage.new U w).downcast U = some w := by
  cases U <;> rfl

/-- Downcasting an erased value to a type tag differing from its runtime
tag fails. -/
theorem AnyMessage.downcast_ne (v : AnyMessage) (U : Ty) (h : v.ty ≠ U) :
    v.downcast U = none := by
  cases v <;> cases U <;> first | rfl | exact absurd rfl h

/-- The runtime tag of an erased value is the tag it was erased at. -/
theorem AnyMessage.ty_new (U : Ty) (w : U.interp) : (AnyMessage.new U w).ty = U := by
  cases U <;> rfl

/-- Looking up an address after pushing a mailbox message to it: the push
appended to the existing mailbox, and pushed to nothing if the address was
unregistered. -/
theorem lookup_pushMailbox (addr : A) (msg : AgentMsg A)
    (reg : List (A × List (AgentMsg A))) :
    (pushMailbox addr msg reg).lookup addr = (reg.lookup addr).map (· ++ [msg]) := by
  induction reg with
  | nil => rfl
  | cons p rest ih =>
    obtain ⟨k, mb⟩ := p
    by_cases h : k = addr
    · subst h
      simp [pushMailbox, List.lookup]
    · have hbeq : (addr == k) = false := beq_eq_false_iff_ne.mpr (Ne.symm h)
      simp [pushMailbox, h, List.lookup, hbeq, ih]

/-! ## Claim theorems -/

/-- C1, counterexample: with retry budget `Count(3)` and every connection
attempt failing, the connection step performs 4 attempts — not the 3 the
claim states — before returning no connection (the budget check fires only
on the failure after the one that decremented the count to 0). -/
theorem C1_count_counterexample :
    (connectTo 5 (fun _ => none) (.constant 5) (.count 3)).map ConnectResult.attempts =
      some 4 ∧
    (connectTo 5 (fun _ => none) (.constant 5) (.count 3)).map ConnectResult.attempts ≠
      some 3 := by
  constructor <;> decide

/-- C1, amended: for every failing target address, the connection step with
budget `Count(n)` performs exactly `n + 1` connection attempts (the
initial attempt plus `n` retries) before returning no connection; with
`Never` it performs exactly 1 attempt; with `Forever` it never returns no
connection (any terminating run established a connection). -/
theorem C1_retry_budget_amended :
    (∀ (rc : Reconnect) (n fuel : Nat) (ok : Nat → Option Nat),
        (∀ k, ok k = none) → n + 1 ≤ fuel →
        (connectTo fuel ok rc (.count n)).map (fun r => (r.conn, r.attempts)) =
          some (none, n + 1))
  ∧ (∀ (rc : Reconnect) (fuel : Nat) (ok : Nat → Option Nat),
        ok 0 = none → 1 ≤ fuel →
        (connectTo fuel ok rc .never).map (fun r => (r.conn, r.attempts)) = some (none, 1))
  ∧ (∀ (fuel : Nat) (ok : Nat → Option Nat) (rc : Reconnect) (r : ConnectResult),
        connectTo fuel ok rc .forever = some r → r.conn ≠ none) := by
  refine ⟨?_, ?_, connectTo_forever_conn⟩
  · intro rc n fuel ok hok hf
    rw [connectTo_count_allFail n fuel ok rc hok hf]
    rfl
  · intro rc fuel ok hok hf
    rw [connectTo_never_fail fuel ok rc hok hf]
    rfl

/-- C1, witness: the amended statement at concrete inputs — `Count(2)` with
all attempts failing makes 3 attempts, `Never` makes 1, and a terminated
`Forever` run holds a connection. -/
theorem C1_retry_budget_witness :
    (connectTo 4 (fun _ => none) (.constant 5) (.count 2)).map
        (fun r => (r.conn, r.attempts)) = some (none, 3) ∧
    (connectTo 1 (fun _ => none) (.constant 5) .never).map
        (fun r => (r.conn, r.attempts)) = some (none, 1) ∧
    (⟨some 7, 1, [], .constant 5⟩ : ConnectResult).conn ≠ none :=
  ⟨C1_retry_budget_amended.1 (.constant 5) 2 4 _ (fun _ => rfl) (by omega),
   C1_retry_budget_amended.2.1 (.constant 5) 1 _ rfl (by omega),
   C1_retry_budget_amended.2.2 1 (fun _ => some 7) (.constant 5) _ (by decide)⟩

/-- C3, counterexample: with `Exponential { seconds := 1, max := Some 5 }`
and every attempt failing, the 65th retry's computed sleep is
`from_secs 0` — the `u64` doubling has wrapped to 0 — and not
`from_secs (min (1 * 2 ^ 64) 5) = from_secs 5` as the claim's formula
`min (s * 2 ^ (N - 1), m)` states. -/
theorem C3_backoff_counterexample :
    (connectTo 66 (fun _ => none) (.exponential 1 (some 5)) (.count 65)).map
        (fun r => r.sleeps.getD 64 77) = some 0 ∧
    (connectTo 66 (fun _ => none) (.exponential 1 (some 5)) (.count 65)).map
        (fun r => r.sleeps.getD 64 77) ≠
      some (Duration.fromSecs (min (1 * 2 ^ 64) 5)) := by
  constructor <;> decide

/-- C3, amended: over one connection step with every attempt failing, the
Nth retry's computed sleep (entry `N - 1` of the sleeps list) is: for
`Exponential(s, Some m)`, `from_secs (min (s * 2 ^ (N-1) mod 2 ^ 64) m)` —
the in-place doubling is a wrapping `u64` multiplication, so whenever
`s * 2 ^ (N-1) < 2 ^ 64` this equals the claim's `min (s * 2 ^ (N-1), m)`;
for `Exponential(s, None)` it is `from_secs (s * 2 ^ (N-1) mod 2 ^ 64)`,
doubling each retry modulo `2 ^ 64` rather than without bound; and for
`Constant(d)` every retry sleeps exactly `d`. -/
theorem C3_backoff_amended :
    (∀ (s m K fuel : Nat) (ok : Nat → Option Nat),
        (∀ k, ok k = none) → s < U64 → K + 1 ≤ fuel →
        (connectTo fuel ok (.exponential s (some m)) (.count K)).map ConnectResult.sleeps =
          some ((List.range K).map (fun i => Duration.fromSecs (min (s * 2 ^ i % U64) m))))
  ∧ (∀ (s K fuel : Nat) (ok : Nat → Option Nat),
        (∀ k, ok k = none) → s < U64 → K + 1 ≤ fuel →
        (connectTo fuel ok (.exponential s none) (.count K)).map ConnectResult.sleeps =
          some ((List.range K).map (fun i => Duration.fromSecs (s * 2 ^ i % U64))))
  ∧ (∀ (d K fuel : Nat) (ok : Nat → Option Nat),
        (∀ k, ok k = none) → K + 1 ≤ fuel →
        (connectTo fuel ok (.constant d) (.count K)).map ConnectResult.sleeps =
          some (List.replicate K d)) := by
  refine ⟨?_, ?_, ?_⟩
  · intro s m K fuel ok hok hs hf
    rw [connectTo_count_allFail K fuel ok _ hok hf]
    simp [backoffSleeps_exp_cap K s m hs]
  · intro s K fuel ok hok hs hf
    rw [connectTo_count_allFail K fuel ok _ hok hf]
    simp [backoffSleeps_exp_nocap K s hs]
  · intro d K fuel ok hok hf
    rw [connectTo_count_allFail K fuel ok _ hok hf]
    simp [backoffSleeps_const]

/-- C3, witness: the amended statement at concrete inputs — starting at 3s
with cap 4s the two retry sleeps are 3s and 4s; with no cap they are 3s
and 6s; with `Constant(7)` both are 7. -/
theorem C3_backoff_witness :
    (connectTo 3 (fun _ => none) (.exponential 3 (some 4)) (.count 2)).map
        ConnectResult.sleeps = some [3000000000, 4000000000] ∧
    (connectTo 3 (fun _ => none) (.exponential 3 none) (.count 2)).map
        ConnectResult.sleeps = some [3000000000, 6000000000] ∧
    (connectTo 3 (fun _ => none) (.constant 7) (.count 2)).map
        ConnectResult.sleeps = some [7, 7] :=
  ⟨(C3_backoff_amended.1 3 4 2 3 _ (fun _ => rfl) (by decide) (by omega)).trans (by decide),
   (C3_backoff_amended.2.1 3 2 3 _ (fun _ => rfl) (by decide) (by omega)).trans (by decide),
   (C3_backoff_amended.2.2 7 2 3 _ (fun _ => rfl) (by omega)).trans (by decide)⟩

/-- C4: when `Bridge::run` holds no connection and the connection step
terminates with no connection (retry budget exhausted), `run` returns a
`Shutdown` message to its caller, having written nothing to any
connection; the returned value is the `Shutdown` constructor of
`Message`, never a raw I/O error (no such inhabitant exists in `run`'s
return type). -/
theorem C4_run_shutdown {T A : Type} (b : Bridge) (env : RunEnv T A) (r : ConnectResult)
    (hb : b.connection = none)
    (hc : connectTo env.fuel (env.oks 0) b.reconnect b.retry = some r)
    (hr : r.conn = none) :
    b.run env = some ⟨{ b with connection := none, reconnect := r.policy },
      some Message.shutdown, [], 1⟩ := by
  simp [Bridge.run, Bridge.reconnectStep, hb, hc, hr]

/-- C4, witness: a bridge with no connection, budget `Never` and an
unreachable address returns `Shutdown`. -/
theorem C4_run_shutdown_witness :
    Bridge.run (T := Nat) (A := Nat) ⟨.constant 1, none, .never, none⟩
        ⟨1, fun _ _ => none, .closed false⟩ =
      some ⟨⟨.constant 1, none, .never, none⟩, some .shutdown, [], 1⟩ :=
  (C4_run_shutdown ⟨.constant 1, none, .never, none⟩
    (⟨1, fun _ _ => none, .closed false⟩ : RunEnv Nat Nat)
    ⟨none, 1, [], .constant 1⟩ rfl rfl rfl).trans (by decide)

/-- C6: when a connection is held and the wrapped agent yields a message,
`Bridge::run` writes a `RemoteMessage`'s bytes, framed by the Frame codec,
to the connection's send side and returns nothing to the caller, while
every other message kind (typed value, removal notification, shutdown) is
returned to the caller unchanged with nothing written. -/
theorem C6_run_forward {T A : Type} (b : Bridge) (env : RunEnv T A) (c : Nat)
    (m : Message T A) (hb : b.connection = some c) (ha : env.arm = .agentMsg (.ok m)) :
    b.run env = some ⟨b,
      (match m with | .remoteMessage _ _ => none | _ => some m),
      (match m with
       | .remoteMessage bytes _ => [ClientMessage.payload (Frame.frameMessage bytes)]
       | _ => []),
      0⟩ := by
  cases m <;> simp [Bridge.run, hb, ha]

/-- C6, witness: a remote-bytes message `[1, 2]` is written as the framed
unit `[0, 0, 0, 2, 1, 2]` with nothing returned, and a typed value message
is returned unchanged with nothing written. -/
theorem C6_run_forward_witness :
    Bridge.run (T := Nat) (A := Nat) ⟨.constant 1, none, .never, some 7⟩
        ⟨1, fun _ _ => none, .agentMsg (.ok (.remoteMessage [1, 2] 9))⟩ =
      some ⟨⟨.constant 1, none, .never, some 7⟩, none, [.payload [0, 0, 0, 2, 1, 2]], 0⟩ ∧
    Bridge.run (T := Nat) (A := Nat) ⟨.constant 1, none, .never, some 7⟩
        ⟨1, fun _ _ => none, .agentMsg (.ok (.value 3 9))⟩ =
      some ⟨⟨.constant 1, none, .never, some 7⟩, some (.value 3 9), [], 0⟩ :=
  ⟨(C6_run_forward _ _ 7 _ rfl rfl).trans (by decide),
   (C6_run_forward _ _ 7 _ rfl rfl).trans (by decide)⟩

/-- C9, counterexample: when the closed-connection signal wins the race,
`run` does not clear the held connection and wait for the next invocation
as the claim states: it performs the connection step within the same
invocation (one `connect_to` call) and, when that step succeeds, ends the
invocation holding the fresh connection (id 9 here) rather than none. -/
theorem C9_reconnect_counterexample :
    (Bridge.run (T := Nat) (A := Nat) ⟨.constant 1, none, .never, some 7⟩
        ⟨1, fun _ _ => some 9, .closed true⟩).map
      (fun r => (r.bridge.connection, r.connectCalls)) = some (some 9, 1) ∧
    (Bridge.run (T := Nat) (A := Nat) ⟨.constant 1, none, .never, some 7⟩
        ⟨1, fun _ _ => some 9, .closed true⟩).map
      (fun r => (r.bridge.connection, r.connectCalls)) ≠ some (none, 0) := by
  constructor <;> decide

/-- C9, amended: when the closed-connection signal wins the race, `run`
immediately performs the connection step within the same invocation,
replaces the held connection with that step's outcome (none exactly when
the retry budget was exhausted), returns no message for that invocation
and writes nothing; the next invocation runs the connection step again
only if this reconnect yielded no connection. -/
theorem C9_reconnect_amended {T A : Type} (b : Bridge) (env : RunEnv T A) (c : Nat)
    (r : ConnectResult) (hb : b.connection = some c) (ha : env.arm = .closed true)
    (hc : connectTo env.fuel (env.oks 0) b.reconnect b.retry = some r) :
    b.run env = some ⟨{ b with connection := r.conn, reconnect := r.policy },
      none, [], 1⟩ := by
  simp [Bridge.run, Bridge.reconnectStep, hb, ha, hc]

/-- C9, witness: the amended statement at a concrete input — the closed
signal wins, the in-invocation reconnect fails under budget `Never`, and
the invocation ends with no connection, no output and one connection-step
call. -/
theorem C9_reconnect_witness :
    Bridge.run (T := Nat) (A := Nat) ⟨.constant 1, none, .never, some 7⟩
        ⟨1, fun _ _ => none, .closed true⟩ =
      some ⟨⟨.constant 1, none, .never, none⟩, none, [], 1⟩ :=
  (C9_reconnect_amended ⟨.constant 1, none, .never, some 7⟩
    (⟨1, fun _ _ => none, .closed true⟩ : RunEnv Nat Nat)
    7 ⟨none, 1, [], .constant 1⟩ rfl rfl rfl).trans (by decide)

/-- C2, code bug: calling `create_agent` with an address that already has a
live mailbox does fail with AddressInUse, but the call is not atomic as
the claim (and spec) require: the child `Agent` handle built before the
registration attempt is dropped when `?` propagates the error, and its
`Drop` submits `Unregister` for the contested address — so once the Router
dispatches its queue, the pre-existing live mailbox at that address is
removed (here: the registry, which held address 0, becomes empty) instead
of remaining registered and routable. -/
theorem C2_create_agent_bug :
    (Agent.createAgent (A := Nat) ⟨1, .nat⟩ .nat 0 4 ⟨true, [(0, [])], [], []⟩).1 =
      .error .addressInUse ∧
    (Agent.createAgent (A := Nat) ⟨1, .nat⟩ .nat 0 4 ⟨true, [(0, [])], [], []⟩).2.pending =
      [.unregister 0] ∧
    ((Agent.createAgent (A := Nat) ⟨1, .nat⟩ .nat 0 4
        ⟨true, [(0, [])], [], []⟩).2.dispatchAll).registry = [] :=
  ⟨by decide, by decide, by decide⟩

/-- C5: `Agent::recv` converts the queued head mailbox message so that raw
remote bytes pass through unchanged with their sender address; an erased
typed value whose runtime type differs from the agent's statically
expected payload type `U` yields the invalid-payload-type error
(`Error::InvalidMessageType`) instead of a coerced value; and a value of
the expected type is returned unchanged with its sender address. -/
theorem C5_recv_convert {A : Type} (U : Ty) (bytes : List Nat) (sender : A)
    (rest : List (AgentMsg A)) :
    (Agent.recv U (.remoteMessage bytes sender :: rest) =
      (.ok (.remoteMessage bytes sender), rest))
  ∧ (∀ v : AnyMessage, v.ty ≠ U →
      Agent.recv U (.message v sender :: rest) = (.error .invalidMessageType, rest))
  ∧ (∀ w : U.interp,
      Agent.recv U (.message (AnyMessage.new U w) sender :: rest) =
        (.ok (.value w sender), rest)) := by
  refine ⟨rfl, ?_, ?_⟩
  · intro v hv
    simp [Agent.recv, AgentMsg.toLocalMessage, AnyMessage.downcast_ne v U hv]
  · intro w
    simp [Agent.recv, AgentMsg.toLocalMessage, AnyMessage.downcast_new U w]

/-- C5, witness: an agent expecting `Nat` payloads receives raw bytes
unchanged, rejects a queued `String` value with the invalid-payload-type
error, and receives a queued `Nat` value unchanged. -/
theorem C5_recv_convert_witness :
    Agent.recv (A := Nat) .nat [.remoteMessage [1, 2] 7] =
      (.ok (.remoteMessage [1, 2] 7), []) ∧
    Agent.recv (A := Nat) .nat [.message (.ofStr "x") 7] =
      (.error .invalidMessageType, []) ∧
    Agent.recv (A := Nat) .nat [.message (.ofNat 5) 7] = (.ok (.value 5 7), []) :=
  ⟨(C5_recv_convert .nat [1, 2] 7 []).1,
   (C5_recv_convert .nat [1, 2] 7 []).2.1 (.ofStr "x") (by decide),
   (C5_recv_convert .nat [1, 2] 7 []).2.2 5⟩

omit [DecidableEq A] in
/-- C7: destroying an Agent handle submits exactly one Unregister command
for the agent's own address when the Router queue is open, and when the
queue is already gone the failed submission is silently ignored — `drop`
is a total function returning only the updated system, so no error
surfaces and no panic is possible; no other component of the system state
is modified in either case. -/
theorem C7_drop_unregister (a : AgentState A) (s : System A) :
    ((Agent.drop a s).pending =
      if s.routerOpen then s.pending ++ [.unregister a.address] else s.pending)
  ∧ (Agent.drop a s).registry = s.registry
  ∧ (Agent.drop a s).tracking = s.tracking
  ∧ (Agent.drop a s).routerOpen = s.routerOpen := by
  by_cases h : s.routerOpen <;> simp [Agent.drop, System.submit, h]

/-- C8: `track(x)` submits exactly one Track edge with the agent itself as
watcher (the `from` field) and `x` as watched (the `to` field);
`reverse_track(x)` submits the edge with `x` as watcher and the agent as
watched; dispatching such an edge adds exactly that one directed edge to
the tracking graph, and the symmetric edge is not installed by either
call. -/
theorem C8_track_edges (a : AgentState A) (x : A) (s g : System A)
    (hopen : s.routerOpen = true) :
    ((Agent.track a x s).1.pending = s.pending ++ [.track a.address x])
  ∧ ((Agent.reverseTrack a x s).1.pending = s.pending ++ [.track x a.address])
  ∧ ((g.dispatchOne (.track a.address x)).tracking = g.tracking ++ [(a.address, x)])
  ∧ (x ≠ a.address → (x, a.address) ∉ g.tracking →
      (x, a.address) ∉ (g.dispatchOne (.track a.address x)).tracking) := by
  refine ⟨?_, ?_, ?_, ?_⟩
  · simp [Agent.track, System.submit, hopen]
  · simp [Agent.reverseTrack, System.submit, hopen]
  · simp [System.dispatchOne]
  · intro hne hnotin hmem
    simp only [System.dispatchOne] at hmem
    rcases List.mem_append.mp hmem with h | h
    · exact hnotin h
    · simp at h
      exact hne h.1

/-- C8, witness: agent 1 tracking address 2 submits the edge (1, 2), its
reverse_track submits (2, 1), and dispatching Track(1, 2) installs only
the directed edge (1, 2), not (2, 1). -/
theorem C8_track_edges_witness :
    (Agent.track (A := Nat) ⟨1, .nat⟩ 2 ⟨true, [], [], []⟩).1.pending = [.track 1 2] ∧
    (Agent.reverseTrack (A := Nat) ⟨1, .nat⟩ 2 ⟨true, [], [], []⟩).1.pending =
      [.track 2 1] ∧
    (System.dispatchOne (A := Nat) ⟨true, [], [], []⟩ (.track 1 2)).tracking = [(1, 2)] ∧
    (2, 1) ∉ (System.dispatchOne (A := Nat) ⟨true, [], [], []⟩ (.track 1 2)).tracking := by
  obtain ⟨h1, h2, h3, h4⟩ :=
    C8_track_edges (A := Nat) ⟨1, .nat⟩ 2 ⟨true, [], [], []⟩ ⟨true, [], [], []⟩ rfl
  exact ⟨by simpa using h1, by simpa using h2, by simpa using h3,
    h4 (by decide) (by simp)⟩

/-- C10: `Agent::send` accepts a payload of any sendable type — the payload
type `U` is unconstrained by the sending agent's own declared
`payloadTy` — and performs no type check: the send enqueues a Deliver
envelope and succeeds exactly when the Router queue is open; the Router's
dispatch appends the erased value to the recipient's mailbox unexamined;
the type mismatch with the recipient's declared payload type `W` is
detected only when the recipient's `recv` decodes the message, failing
there with the invalid-payload-type error. -/
theorem C10_send_unchecked (a : AgentState A) (U W : Ty) (recipient : A)
    (v : U.interp) (s : System A) (mb rest : List (AgentMsg A)) (hW : W ≠ U) :
    (Agent.send a U recipient v s =
      (if s.routerOpen
        then { s with
                pending := s.pending ++ [.message recipient a.address (AnyMessage.new U v)] }
        else s,
       if s.routerOpen then .ok () else .error .routerClosed))
  ∧ ((s.registry.lookup recipient = some mb) →
      (s.dispatchOne (.message recipient a.address (AnyMessage.new U v))).registry.lookup
        recipient = some (mb ++ [.message (AnyMessage.new U v) a.address]))
  ∧ (Agent.recv W (.message (AnyMessage.new U v) a.address :: rest) =
      (.error .invalidMessageType, rest)) := by
  have hty : (AnyMessage.new U v).ty ≠ W := by
    rw [AnyMessage.ty_new]
    exact Ne.symm hW
  refine ⟨?_, ?_, ?_⟩
  · by_cases h : s.routerOpen <;> simp [Agent.send, System.submit, h]
  · intro hmb
    simp [System.dispatchOne, lookup_pushMailbox, hmb]
  · simp [Agent.recv, AgentMsg.toLocalMessage, AnyMessage.downcast_ne _ _ hty]

/-- C10, witness: an agent at address 1 declaring `Bool` payloads sends a
`Nat` payload to address 2 successfully; dispatch places the erased value
in 2's mailbox; and a recipient expecting `String` payloads fails to
decode it with the invalid-payload-type error. -/
theorem C10_send_unchecked_witness :
    Agent.send (A := Nat) ⟨1, .bool⟩ .nat 2 5 ⟨true, [(2, [])], [], []⟩ =
      (⟨true, [(2, [])], [], [.message 2 1 (.ofNat 5)]⟩, .ok ()) ∧
    (System.dispatchOne (A := Nat) ⟨true, [(2, [])], [], []⟩
        (.message 2 1 (.ofNat 5))).registry.lookup 2 = some [.message (.ofNat 5) 1] ∧
    Agent.recv (A := Nat) .str [.message (.ofNat 5) 1] =
      (.error .invalidMessageType, []) := by
  obtain ⟨h1, h2, h3⟩ := C10_send_unchecked (A := Nat) ⟨1, .bool⟩ .nat .str 2 5
    ⟨true, [(2, [])], [], []⟩ [] [] (by decide)
  exact ⟨by simpa using h1, by simpa using h2 (by decide), by simpa using h3⟩

end Tinyroute
